import Mathlib

/-!
FreeIPA DNS record resource handler

A shallow embedding of `resource_dns_record.go`: the five handlers
(create, read, update, delete, import) of the `freeipa_dns_record` resource,
together with the few Go library operations they call.

Modelling conventions

* A Go `string` is a Lean `String` (valid UTF-8 text).
* `*schema.ResourceData` is the record `ResourceData`; a handler that mutates
  `d` returns the new value of `d`.
* An attribute of type `schema.TypeSet` of strings is a `List String` holding
  the elements of the set; `d.Set("records", v)` stores `v` without
  duplicates, `(*schema.Set).List()` returns the stored elements.  The
  hash order in which the SDK enumerates a set is not modelled.
* A Go pointer field of the go-freeipa request and response structs
  (`*[]string`, `*int`, `*string`, `*bool`) is an `Option`; `nil` is `none`.
* The remote directory service is a state of an arbitrary type `σ`; every
  client method maps a request and a state to a response and a new state.
* A Go `error` is the `String` given by its `Error()` method.
* `diag.Diagnostics` is a list of diagnostics; `nil` is the empty list.
-/

namespace FreeIPA

/-! ## Go library operations used by the handlers -/

/-- `true` when `sub` occurs in `s` as a contiguous block. -/
def containsChars : List Char → List Char → Bool
  | [], sub => sub.isPrefixOf []
  | c :: cs, sub => sub.isPrefixOf (c :: cs) || containsChars cs sub

/-- Go `strings.Contains(s, substr)`. -/
def strings_Contains (s substr : String) : Bool :=
  containsChars s.data substr.data

/-- Go `strings.ToLower(s)`: every rune of `s` is mapped by `unicode.ToLower`.
The rune mapping is a table of the Go runtime and is taken as the parameter
`lowerRune`. -/
def strings_ToLower (lowerRune : Char → Char) (s : String) : String :=
  String.mk (s.data.map lowerRune)

/-- Go `strings.Split(s, sep)` for a separator `sep` of one character, the only
way the handlers call it (`"/"`). -/
def strings_Split (s : String) (sep : Char) : List String :=
  (s.data.splitOn sep).map String.mk

/-- Go `strings.Join(elems, sep)`. -/
def strings_Join (elems : List String) (sep : String) : String :=
  String.intercalate sep elems

/-! ## Diagnostics -/

/-- Severity of a diagnostic (`diag.Severity`). -/
inductive Severity where
  | Error
  | Warning
  deriving DecidableEq, Repr

/-- One diagnostic (`diag.Diagnostic`). -/
structure Diagnostic where
  Severity : Severity
  Summary : String
  deriving DecidableEq, Repr

/-- The type `diag.Diagnostics`. -/
abbrev Diagnostics := List Diagnostic

/-- `diag.Errorf(format + "%s", err)`: one diagnostic of severity Error. -/
def diag_Errorf (format : String) (err : String) : Diagnostics :=
  [{ Severity := Severity.Error, Summary := format ++ err }]

/-- `Diagnostics.HasError()`. -/
def Diagnostics.HasError (ds : Diagnostics) : Bool :=
  ds.any (fun x => decide (x.Severity = Severity.Error))

/-! ## Resource data -/

/-- The state of one `freeipa_dns_record` resource: its id and the six
attributes of the schema. -/
structure ResourceData where
  id : String
  name : String
  zone_name : String
  type : String
  records : List String
  ttl : Option Int
  set_identifier : Option String
  deriving DecidableEq, Repr

namespace ResourceData

/-- `d.Id()`. -/
def Id (d : ResourceData) : String := d.id

/-- `d.SetId(v)`. -/
def SetId (d : ResourceData) (v : String) : ResourceData := { d with id := v }

/-- `d.Set("name", v)`. -/
def Set_name (d : ResourceData) (v : String) : ResourceData := { d with name := v }

/-- `d.Set("zone_name", v)`. -/
def Set_zone_name (d : ResourceData) (v : String) : ResourceData :=
  { d with zone_name := v }

/-- `d.Set("type", v)`. -/
def Set_type (d : ResourceData) (v : String) : ResourceData := { d with type := v }

/-- `d.Set("records", v)`: the attribute is a set, duplicates collapse. -/
def Set_records (d : ResourceData) (v : List String) : ResourceData :=
  { d with records := v.dedup }

/-- `d.Set("ttl", v)`. -/
def Set_ttl (d : ResourceData) (v : Int) : ResourceData := { d with ttl := some v }

/-- `d.GetOk("set_identifier")`: the value, and whether it is set to something
other than the zero value `""`. -/
def GetOk_set_identifier (d : ResourceData) : String × Bool :=
  match d.set_identifier with
  | some v => (v, decide (v ≠ ""))
  | none => ("", false)

end ResourceData

/-! ## The go-freeipa client -/

/-- Positional arguments of the four dnsrecord calls
(`DnsrecordAddArgs`, `DnsrecordShowArgs`, `DnsrecordModArgs`,
`DnsrecordDelArgs`): the record name. -/
structure DnsrecordArgs where
  Idnsname : String
  deriving DecidableEq, Repr

/-- Optional arguments of the add, mod and del calls
(`DnsrecordAddOptionalArgs`, `DnsrecordModOptionalArgs`,
`DnsrecordDelOptionalArgs`), restricted to the fields the handlers touch. -/
structure DnsrecordOptionalArgs where
  Dnszoneidnsname : Option String := none
  Arecord : Option (List String) := none
  Aaaarecord : Option (List String) := none
  Cnamerecord : Option (List String) := none
  Mxrecord : Option (List String) := none
  Nsrecord : Option (List String) := none
  Ptrrecord : Option (List String) := none
  Srvrecord : Option (List String) := none
  Txtrecord : Option (List String) := none
  Sshfprecord : Option (List String) := none
  Dnsttl : Option Int := none
  deriving DecidableEq, Repr

/-- Optional arguments of the show call (`DnsrecordShowOptionalArgs`). -/
structure DnsrecordShowOptionalArgs where
  Dnszoneidnsname : Option String := none
  All : Option Bool := none
  deriving DecidableEq, Repr

/-- The record returned by show (`Dnsrecord`), restricted to the fields the
read handler inspects. -/
structure Dnsrecord where
  Idnsname : String := ""
  Arecord : Option (List String) := none
  Aaaarecord : Option (List String) := none
  Cnamerecord : Option (List String) := none
  Mxrecord : Option (List String) := none
  Nsrecord : Option (List String) := none
  Ptrrecord : Option (List String) := none
  Srvrecord : Option (List String) := none
  Txtrecord : Option (List String) := none
  Sshfprecord : Option (List String) := none
  Dnsttl : Option Int := none
  deriving DecidableEq, Repr

/-- The response of show (`DnsrecordShowResult`). -/
structure DnsrecordShowResult where
  Result : Dnsrecord
  deriving DecidableEq, Repr

/-- The client of the directory service.  Each method takes the request and
the state of the remote and gives the response (or the error) and the state
of the remote after the call.  The responses of add, mod and del are
discarded by the handlers and carry no data here. -/
structure Client (σ : Type) where
  DnsrecordAdd : DnsrecordArgs → DnsrecordOptionalArgs → σ → Except String Unit × σ
  DnsrecordShow :
    DnsrecordArgs → DnsrecordShowOptionalArgs → σ → Except String DnsrecordShowResult × σ
  DnsrecordMod : DnsrecordArgs → DnsrecordOptionalArgs → σ → Except String Unit × σ
  DnsrecordDel : DnsrecordArgs → DnsrecordOptionalArgs → σ → Except String Unit × σ

/-- The provider configuration `meta.(*Config)`: `Client()` gives a client or
fails. -/
structure Config (σ : Type) where
  Client : Except String (Client σ)

/-- What a handler leaves behind: the diagnostics it returns, the resource
data and the state of the remote. -/
structure Outcome (σ : Type) where
  diags : Diagnostics
  d : ResourceData
  remote : σ

/-! ## Read -/

/-- `resourceFreeIPADNSDNSRecordRead`. -/
def resourceFreeIPADNSDNSRecordRead {σ : Type} (d : ResourceData) (cfg : Config σ)
    (remote : σ) : Outcome σ :=
  match cfg.Client with
  | Except.error err =>
    { diags := diag_Errorf "Error creating freeipa identity client: " err, d := d,
      remote := remote }
  | Except.ok client =>
    let args : DnsrecordArgs := { Idnsname := d.name }
    let zone_name := d.zone_name
    let all := true
    let optArgs : DnsrecordShowOptionalArgs :=
      { Dnszoneidnsname := some zone_name, All := some all }
    match client.DnsrecordShow args optArgs remote with
    | (Except.error err, remote1) =>
      if strings_Contains err "NotFound" then
        { diags := [], d := d.SetId "", remote := remote1 }
      else
        { diags := diag_Errorf "Error reading freeipa DNS record: " err, d := d,
          remote := remote1 }
    | (Except.ok res, remote1) =>
      let d := if res.Result.Idnsname ≠ "" then d.Set_name res.Result.Idnsname else d
      let d := if zone_name ≠ "" then d.Set_zone_name zone_name else d
      let _type := d.type
      let d :=
        if _type = "A" then
          match res.Result.Arecord with
          | some v => d.Set_records v
          | none => d
        else if _type = "AAAA" then
          match res.Result.Aaaarecord with
          | some v => d.Set_records v
          | none => d
        else if _type = "MX" then
          match res.Result.Mxrecord with
          | some v => d.Set_records v
          | none => d
        else if _type = "NS" then
          match res.Result.Nsrecord with
          | some v => d.Set_records v
          | none => d
        else if _type = "PTR" then
          match res.Result.Ptrrecord with
          | some v => d.Set_records v
          | none => d
        else if _type = "SRV" then
          match res.Result.Srvrecord with
          | some v => d.Set_records v
          | none => d
        else if _type = "TXT" then
          match res.Result.Txtrecord with
          | some v => d.Set_records v
          | none => d
        else if _type = "SSHFP" then
          match res.Result.Sshfprecord with
          | some v => d.Set_records v
          | none => d
        else d
      let d :=
        match res.Result.Dnsttl with
        | some v => d.Set_ttl v
        | none => d
      { diags := [], d := d, remote := remote1 }

/-! ## Create -/

/-- The add request built by `resourceFreeIPADNSDNSRecordCreate`
(the statements up to the call of `client.DnsrecordAdd`). -/
def createRequest (d : ResourceData) : DnsrecordArgs × DnsrecordOptionalArgs :=
  let name := d.name
  let zone_name := d.zone_name
  let args : DnsrecordArgs := { Idnsname := name }
  let optArgs : DnsrecordOptionalArgs := { Dnszoneidnsname := some zone_name }
  let _type := d.type
  let records := d.records
  let optArgs :=
    if _type = "A" then { optArgs with Arecord := some records }
    else if _type = "AAAA" then { optArgs with Aaaarecord := some records }
    else if _type = "CNAME" then { optArgs with Cnamerecord := some records }
    else if _type = "MX" then { optArgs with Mxrecord := some records }
    else if _type = "NS" then { optArgs with Nsrecord := some records }
    else if _type = "PTR" then { optArgs with Ptrrecord := some records }
    else if _type = "SRV" then { optArgs with Srvrecord := some records }
    else if _type = "TXT" then { optArgs with Txtrecord := some records }
    else if _type = "SSHFP" then { optArgs with Sshfprecord := some records }
    else optArgs
  let optArgs :=
    match d.ttl with
    | some v => { optArgs with Dnsttl := some v }
    | none => optArgs
  (args, optArgs)

/-- The id generated by `resourceFreeIPADNSDNSRecordCreate`
(the statements under the comment "Generate an ID"). -/
def createId (lowerRune : Char → Char) (d : ResourceData) : String :=
  let name := d.name
  let zone_name := d.zone_name
  let _type := d.type
  let vars := [zone_name, strings_ToLower lowerRune name, _type]
  let vars :=
    match d.GetOk_set_identifier with
    | (v, true) => vars ++ [v]
    | (_, false) => vars
  strings_Join vars "_"

/-- `resourceFreeIPADNSDNSRecordCreate`. -/
def resourceFreeIPADNSDNSRecordCreate {σ : Type} (lowerRune : Char → Char)
    (d : ResourceData) (cfg : Config σ) (remote : σ) : Outcome σ :=
  match cfg.Client with
  | Except.error err =>
    { diags := diag_Errorf "Error creating freeipa identity client: " err, d := d,
      remote := remote }
  | Except.ok client =>
    match client.DnsrecordAdd (createRequest d).1 (createRequest d).2 remote with
    | (Except.error err, remote1) =>
      if strings_Contains err "EmptyModlist" then
        resourceFreeIPADNSDNSRecordRead (d.SetId (createId lowerRune d)) cfg remote1
      else
        { diags := diag_Errorf "Error creating freeipa dns record: " err, d := d,
          remote := remote1 }
    | (Except.ok _, remote1) =>
      resourceFreeIPADNSDNSRecordRead (d.SetId (createId lowerRune d)) cfg remote1

/-! ## Update -/

/-- The mod request built by `resourceFreeIPADNSDNSRecordUpdate`. -/
def updateRequest (d : ResourceData) : DnsrecordArgs × DnsrecordOptionalArgs :=
  let args : DnsrecordArgs := { Idnsname := d.name }
  let zone_name := d.zone_name
  let optArgs : DnsrecordOptionalArgs := { Dnszoneidnsname := some zone_name }
  let _type := d.type
  let records := d.records
  let optArgs :=
    if _type = "A" then { optArgs with Arecord := some records }
    else if _type = "AAAA" then { optArgs with Aaaarecord := some records }
    else if _type = "CNAME" then { optArgs with Cnamerecord := some records }
    else if _type = "MX" then { optArgs with Mxrecord := some records }
    else if _type = "NS" then { optArgs with Nsrecord := some records }
    else if _type = "PTR" then { optArgs with Ptrrecord := some records }
    else if _type = "SRV" then { optArgs with Srvrecord := some records }
    else if _type = "TXT" then { optArgs with Txtrecord := some records }
    else if _type = "SSHFP" then { optArgs with Sshfprecord := some records }
    else optArgs
  let optArgs :=
    match d.ttl with
    | some v => { optArgs with Dnsttl := some v }
    | none => optArgs
  (args, optArgs)

/-- `resourceFreeIPADNSDNSRecordUpdate`. -/
def resourceFreeIPADNSDNSRecordUpdate {σ : Type} (d : ResourceData) (cfg : Config σ)
    (remote : σ) : Outcome σ :=
  match cfg.Client with
  | Except.error err =>
    { diags := diag_Errorf "Error creating freeipa identity client: " err, d := d,
      remote := remote }
  | Except.ok client =>
    match client.DnsrecordMod (updateRequest d).1 (updateRequest d).2 remote with
    | (Except.error err, remote1) =>
      if strings_Contains err "EmptyModlist" then
        resourceFreeIPADNSDNSRecordRead d cfg remote1
      else
        { diags := diag_Errorf "Error update freeipa dns record: " err, d := d,
          remote := remote1 }
    | (Except.ok _, remote1) => resourceFreeIPADNSDNSRecordRead d cfg remote1

/-! ## Delete -/

/-- The del request built by `resourceFreeIPADNSDNSRecordDelete`. -/
def deleteRequest (d : ResourceData) : DnsrecordArgs × DnsrecordOptionalArgs :=
  let args : DnsrecordArgs := { Idnsname := d.name }
  let zone_name := d.zone_name
  let optArgs : DnsrecordOptionalArgs := { Dnszoneidnsname := some zone_name }
  let _type := d.type
  let records := d.records
  let optArgs :=
    if _type = "A" then { optArgs with Arecord := some records }
    else if _type = "AAAA" then { optArgs with Aaaarecord := some records }
    else if _type = "CNAME" then { optArgs with Cnamerecord := some records }
    else if _type = "MX" then { optArgs with Mxrecord := some records }
    else if _type = "NS" then { optArgs with Nsrecord := some records }
    else if _type = "PTR" then { optArgs with Ptrrecord := some records }
    else if _type = "SRV" then { optArgs with Srvrecord := some records }
    else if _type = "TXT" then { optArgs with Txtrecord := some records }
    else if _type = "SSHFP" then { optArgs with Sshfprecord := some records }
    else optArgs
  (args, optArgs)

/-- `resourceFreeIPADNSDNSRecordDelete`. -/
def resourceFreeIPADNSDNSRecordDelete {σ : Type} (d : ResourceData) (cfg : Config σ)
    (remote : σ) : Outcome σ :=
  match cfg.Client with
  | Except.error err =>
    { diags := diag_Errorf "Error creating freeipa identity client: " err, d := d,
      remote := remote }
  | Except.ok client =>
    match client.DnsrecordDel (deleteRequest d).1 (deleteRequest d).2 remote with
    | (Except.error err, remote1) =>
      { diags := diag_Errorf "Error delete freeipa dns record: " err, d := d,
        remote := remote1 }
    | (Except.ok _, remote1) => { diags := [], d := d.SetId "", remote := remote1 }

/-! ## Import -/

/-- What `resourceFreeIPADNSDNSRecordImport` leaves behind: the resource data
`d` it was given, as mutated, and the two values it returns. -/
structure ImportOutcome where
  d : ResourceData
  result : List ResourceData
  err : Option String
  deriving DecidableEq, Repr

/-- `resourceFreeIPADNSDNSRecordImport`.  The handler does not use `meta`. -/
def resourceFreeIPADNSDNSRecordImport (lowerRune : Char → Char) (d : ResourceData) :
    ImportOutcome :=
  match strings_Split d.Id '/' with
  | [p0, p1, p2] =>
    let d := d.Set_name p0
    let d := d.Set_zone_name p1
    let d := d.Set_type p2
    let record_name := p0
    let zone_name := p1
    let _type := p2
    let vars := [zone_name, strings_ToLower lowerRune record_name, _type]
    let d := d.SetId (strings_Join vars "_")
    { d := d, result := [d], err := none }
  | _ =>
    { d := d, result := [],
      err := some
        "Invalid ID: The expected format is <record name>/<zone name>/<record type>" }

/-! ## Sample data -/

/-- A record as the engine hands it to create: no id yet. -/
def sampleRecord : ResourceData :=
  { id := "", name := "Rec1", zone_name := "zone.example.com", type := "A",
    records := ["192.0.2.1", "192.0.2.2"], ttl := none, set_identifier := none }

/-- A show response echoing the record of `sampleRecord`. -/
def sampleShown : DnsrecordShowResult :=
  { Result := { Idnsname := "Rec1", Arecord := some ["192.0.2.2", "192.0.2.1"] } }

/-- A CNAME record as import leaves it: `records` not yet known. -/
def cnameRecord : ResourceData :=
  { id := "zone.example.com_www_CNAME", name := "www", zone_name := "zone.example.com",
    type := "CNAME", records := [], ttl := none, set_identifier := none }

/-- A show response for `cnameRecord`, the cname field present. -/
def cnameShown : DnsrecordShowResult :=
  { Result := { Idnsname := "www", Cnamerecord := some ["host.zone.example.com."] } }

/-- A record whose zone holds the joining character of the id. -/
def underscoreZone : ResourceData :=
  { id := "", name := "c", zone_name := "a_b", type := "A", records := ["192.0.2.1"],
    ttl := none, set_identifier := none }

/-- A record whose name holds the joining character of the id. -/
def underscoreName : ResourceData :=
  { id := "", name := "b_c", zone_name := "a", type := "A", records := ["192.0.2.1"],
    ttl := none, set_identifier := none }

/-- The responses a scripted remote gives to the four calls. -/
structure Script where
  add : Except String Unit
  show_ : Except String DnsrecordShowResult
  mod : Except String Unit
  del : Except String Unit

/-- A remote for experiments: its state is the log of the calls received, and
it answers every call as the script says. -/
def scriptedClient (s : Script) : Client (List String) :=
  { DnsrecordAdd := fun _ _ log => (s.add, log ++ ["add"])
    DnsrecordShow := fun _ _ log => (s.show_, log ++ ["show"])
    DnsrecordMod := fun _ _ log => (s.mod, log ++ ["mod"])
    DnsrecordDel := fun _ _ log => (s.del, log ++ ["del"]) }

/-- A script whose calls all succeed and whose show echoes `sampleRecord`. -/
def okScript : Script :=
  { add := Except.ok (), show_ := Except.ok sampleShown, mod := Except.ok (),
    del := Except.ok () }

/-! ## Vocabulary of the statements -/

/-- The nine record types of the schema, in the order of the switch. -/
def recordTypes : List String :=
  ["A", "AAAA", "CNAME", "MX", "NS", "PTR", "SRV", "TXT", "SSHFP"]

/-- The nine type-specific value fields of a request, in the order of
`recordTypes`. -/
def DnsrecordOptionalArgs.valueFields (o : DnsrecordOptionalArgs) :
    List (Option (List String)) :=
  [o.Arecord, o.Aaaarecord, o.Cnamerecord, o.Mxrecord, o.Nsrecord, o.Ptrrecord,
    o.Srvrecord, o.Txtrecord, o.Sshfprecord]

/-- The nine type-specific value fields of a response, in the order of
`recordTypes`. -/
def Dnsrecord.valueFields (r : Dnsrecord) : List (Option (List String)) :=
  [r.Arecord, r.Aaaarecord, r.Cnamerecord, r.Mxrecord, r.Nsrecord, r.Ptrrecord,
    r.Srvrecord, r.Txtrecord, r.Sshfprecord]

/-- The external id `name/zone/type` handed to import. -/
def externalID (name zone type : String) : String :=
  name ++ "/" ++ zone ++ "/" ++ type

/-- The composite id `zone_lowercase(name)_type`. -/
def compositeId (lowerRune : Char → Char) (zone name type : String) : String :=
  zone ++ "_" ++ strings_ToLower lowerRune name ++ "_" ++ type

/-! ## Lemmas on splitting and joining -/

theorem length_splitOnP_eq {α : Type} (p : α → Bool) (l : List α) :
    (l.splitOnP p).length = l.countP p + 1 := by
  induction l with
  | nil => simp
  | cons x xs ih =>
    rw [List.splitOnP_cons]
    by_cases h : p x = true
    · simp [h, ih]
    · simp [h, ih]

theorem length_strings_Split (s : String) (sep : Char) :
    (strings_Split s sep).length = s.data.count sep + 1 := by
  simp [strings_Split, List.splitOn, length_splitOnP_eq, List.count]

theorem splitOn_three (c : Char) (a b e : List Char) (ha : c ∉ a) (hb : c ∉ b)
    (he : c ∉ e) : (a ++ c :: (b ++ c :: e)).splitOn c = [a, b, e] := by
  have key : ([c].intercalate [a, b, e]).splitOn c = [a, b, e] :=
    List.splitOn_intercalate [a, b, e] c
    (by
      intro l hl
      simp only [List.mem_cons, List.mem_singleton, List.not_mem_nil, or_false] at hl
      rcases hl with rfl | rfl | rfl <;> assumption)
    (by simp)
  simpa [List.intercalate, List.intersperse] using key

theorem strings_Split_externalID (n z t : String) (hn : '/' ∉ n.data)
    (hz : '/' ∉ z.data) (ht : '/' ∉ t.data) :
    strings_Split (externalID n z t) '/' = [n, z, t] := by
  have h : (externalID n z t).data = n.data ++ '/' :: (z.data ++ '/' :: t.data) := by
    simp [externalID, String.data_append]
  simp [strings_Split, h, splitOn_three '/' n.data z.data t.data hn hz ht]

theorem strings_Join_three (a b c : String) :
    strings_Join [a, b, c] "_" = a ++ "_" ++ b ++ "_" ++ c := by
  simp [strings_Join, String.intercalate, String.intercalate.go]

theorem strings_Join_four (a b c e : String) :
    strings_Join [a, b, c, e] "_" = a ++ "_" ++ b ++ "_" ++ c ++ "_" ++ e := by
  simp [strings_Join, String.intercalate, String.intercalate.go]

theorem toFinset_dedup_eq (v : List String) : v.dedup.toFinset = v.toFinset := by
  ext x
  simp

/-- Cutting at the first occurrence of a separator is unambiguous. -/
theorem append_sep_inj (c : Char) :
    ∀ (a b x y : List Char), c ∉ a → c ∉ b → a ++ c :: x = b ++ c :: y → a = b ∧ x = y := by
  intro a
  induction a with
  | nil =>
    intro b x y _ hb h
    cases b with
    | nil => simpa using h
    | cons b0 bs =>
      simp only [List.nil_append, List.cons_append, List.cons.injEq] at h
      exact absurd (by simp [h.1]) hb
  | cons a0 as ih =>
    intro b x y ha hb h
    cases b with
    | nil =>
      simp only [List.nil_append, List.cons_append, List.cons.injEq] at h
      exact absurd (by simp [h.1]) ha
    | cons b0 bs =>
      simp only [List.cons_append, List.cons.injEq] at h
      have ha2 : c ∉ as := fun hc => ha (List.mem_cons_of_mem _ hc)
      have hb2 : c ∉ bs := fun hc => hb (List.mem_cons_of_mem _ hc)
      obtain ⟨h1, h2⟩ := ih bs x y ha2 hb2 h.2
      exact ⟨by rw [h.1, h1], h2⟩

theorem compositeId_data (lowerRune : Char → Char) (z n t : String) :
    (compositeId lowerRune z n t).data =
      z.data ++ '_' :: ((strings_ToLower lowerRune n).data ++ '_' :: t.data) := by
  simp [compositeId, String.data_append]

/-- The composite id determines zone, lowercased name and type when neither the
zone nor the lowercased name contains the joining character. -/
theorem compositeId_inj (lowerRune : Char → Char) (z1 n1 t1 z2 n2 t2 : String)
    (hz1 : '_' ∉ z1.data) (hn1 : '_' ∉ (strings_ToLower lowerRune n1).data)
    (hz2 : '_' ∉ z2.data) (hn2 : '_' ∉ (strings_ToLower lowerRune n2).data)
    (h : compositeId lowerRune z1 n1 t1 = compositeId lowerRune z2 n2 t2) :
    z1 = z2 ∧ strings_ToLower lowerRune n1 = strings_ToLower lowerRune n2 ∧ t1 = t2 := by
  have hd := congrArg String.data h
  rw [compositeId_data, compositeId_data] at hd
  obtain ⟨e1, r1⟩ := append_sep_inj '_' _ _ _ _ hz1 hz2 hd
  obtain ⟨e2, e3⟩ := append_sep_inj '_' _ _ _ _ hn1 hn2 r1
  exact ⟨String.ext e1, String.ext e2, String.ext e3⟩

theorem import_of_parts (lowerRune : Char → Char) (d : ResourceData) (n z t : String)
    (hn : '/' ∉ n.data) (hz : '/' ∉ z.data) (ht : '/' ∉ t.data) :
    resourceFreeIPADNSDNSRecordImport lowerRune (d.SetId (externalID n z t)) =
      { d := { d with id := compositeId lowerRune z n t, name := n, zone_name := z,
                      type := t },
        result := [{ d with id := compositeId lowerRune z n t, name := n, zone_name := z,
                            type := t }],
        err := none } := by
  have hs : strings_Split (d.SetId (externalID n z t)).Id '/' = [n, z, t] := by
    simpa [ResourceData.SetId, ResourceData.Id] using strings_Split_externalID n z t hn hz ht
  simp only [resourceFreeIPADNSDNSRecordImport, hs, strings_Join_three]
  simp [ResourceData.SetId, ResourceData.Set_name, ResourceData.Set_zone_name,
    ResourceData.Set_type, compositeId]

theorem createId_of_unset (lowerRune : Char → Char) (d : ResourceData)
    (h : d.GetOk_set_identifier.2 = false) :
    createId lowerRune d = compositeId lowerRune d.zone_name d.name d.type := by
  unfold createId
  rcases hg : d.GetOk_set_identifier with ⟨v, ok⟩
  rw [hg] at h
  simp only at h
  subst h
  simp [strings_Join_three, compositeId]

theorem createId_of_set (lowerRune : Char → Char) (d : ResourceData) (s : String)
    (h : d.set_identifier = some s) (hs : s ≠ "") :
    createId lowerRune d = compositeId lowerRune d.zone_name d.name d.type ++ "_" ++ s := by
  simp [createId, ResourceData.GetOk_set_identifier, h, hs, strings_Join_four, compositeId]

/-- Read consults the client through show alone. -/
theorem read_congr_show {σ : Type} (d : ResourceData) (c1 c2 : Client σ) (remote : σ)
    (h : c2.DnsrecordShow = c1.DnsrecordShow) :
    resourceFreeIPADNSDNSRecordRead d { Client := Except.ok c2 } remote =
      resourceFreeIPADNSDNSRecordRead d { Client := Except.ok c1 } remote := by
  simp only [resourceFreeIPADNSDNSRecordRead, h]

/-! ## Import -/

/-- C3: for an external id `n/z/t` whose three parts contain no "/", import
returns no error and the list holding exactly the one record, with name `n`
(case preserved), zone_name `z`, type `t` and id `z_lowercase(n)_t`; the other
attributes are untouched. -/
theorem import_wellformed (lowerRune : Char → Char) (d : ResourceData) (n z t : String)
    (hn : '/' ∉ n.data) (hz : '/' ∉ z.data) (ht : '/' ∉ t.data) :
    resourceFreeIPADNSDNSRecordImport lowerRune (d.SetId (externalID n z t)) =
      { d := { d with id := compositeId lowerRune z n t, name := n, zone_name := z,
                      type := t },
        result := [{ d with id := compositeId lowerRune z n t, name := n, zone_name := z,
                            type := t }],
        err := none } :=
  import_of_parts lowerRune d n z t hn hz ht

/-- C3 at `rec1/zone.example.com/A`: name `rec1`, zone `zone.example.com`, type
`A`, id `zone.example.com_rec1_A`. -/
theorem import_wellformed_witness :
    ('/' ∉ "rec1".data ∧ '/' ∉ "zone.example.com".data ∧ '/' ∉ "A".data) ∧
    externalID "rec1" "zone.example.com" "A" = "rec1/zone.example.com/A" ∧
    compositeId Char.toLower "zone.example.com" "rec1" "A" = "zone.example.com_rec1_A" ∧
    resourceFreeIPADNSDNSRecordImport Char.toLower
        (sampleRecord.SetId (externalID "rec1" "zone.example.com" "A")) =
      { d := { sampleRecord with id := compositeId Char.toLower "zone.example.com" "rec1" "A",
                                 name := "rec1", zone_name := "zone.example.com",
                                 type := "A" },
        result := [{ sampleRecord with
                       id := compositeId Char.toLower "zone.example.com" "rec1" "A",
                       name := "rec1", zone_name := "zone.example.com", type := "A" }],
        err := none } :=
  ⟨⟨by decide, by decide, by decide⟩, by decide, by decide,
    import_wellformed Char.toLower sampleRecord "rec1" "zone.example.com" "A"
      (by decide) (by decide) (by decide)⟩

/-- C4: import returns an error exactly when the id does not hold exactly two
"/" (splitting it on "/" does not give exactly 3 parts); it then returns the
empty list and leaves the resource data, id included, as it was. -/
theorem import_error_iff (lowerRune : Char → Char) (d : ResourceData) :
    ((resourceFreeIPADNSDNSRecordImport lowerRune d).err ≠ none ↔
        d.Id.data.count '/' ≠ 2) ∧
    ((resourceFreeIPADNSDNSRecordImport lowerRune d).err ≠ none ↔
        (strings_Split d.Id '/').length ≠ 3) ∧
    ((resourceFreeIPADNSDNSRecordImport lowerRune d).err ≠ none →
        (resourceFreeIPADNSDNSRecordImport lowerRune d).result = [] ∧
        (resourceFreeIPADNSDNSRecordImport lowerRune d).d = d) := by
  have hlen := length_strings_Split d.Id '/'
  have key : ((resourceFreeIPADNSDNSRecordImport lowerRune d).err ≠ none ↔
        (strings_Split d.Id '/').length ≠ 3) ∧
      ((resourceFreeIPADNSDNSRecordImport lowerRune d).err ≠ none →
        (resourceFreeIPADNSDNSRecordImport lowerRune d).result = [] ∧
        (resourceFreeIPADNSDNSRecordImport lowerRune d).d = d) := by
    unfold resourceFreeIPADNSDNSRecordImport
    split
    · rename_i p0 p1 p2 heq
      simp [heq]
    · rename_i hne
      refine ⟨?_, ?_⟩
      · refine ⟨fun _ hl => ?_, fun _ => by simp⟩
        match hsp : strings_Split d.Id '/', hl with
        | [p0, p1, p2], _ => exact hne p0 p1 p2 hsp
      · intro _
        exact ⟨rfl, rfl⟩
  refine ⟨?_, key.1, key.2⟩
  rw [key.1, hlen]
  omega

/-- C4 at `bad-format`: an error, no record, nothing changed. -/
theorem import_error_iff_witness :
    (resourceFreeIPADNSDNSRecordImport Char.toLower (sampleRecord.SetId "bad-format")).err
        ≠ none ∧
    (resourceFreeIPADNSDNSRecordImport Char.toLower (sampleRecord.SetId "bad-format")).result
        = [] ∧
    (resourceFreeIPADNSDNSRecordImport Char.toLower (sampleRecord.SetId "bad-format")).d
        = sampleRecord.SetId "bad-format" :=
  have h : (resourceFreeIPADNSDNSRecordImport Char.toLower
      (sampleRecord.SetId "bad-format")).err ≠ none := by decide
  ⟨h, (import_error_iff Char.toLower (sampleRecord.SetId "bad-format")).2.2 h⟩

/-! ## Read -/

/-- C5: when show fails with a message containing "NotFound", read clears the
id, returns no error and changes no other attribute; when show fails with any
other message, read returns an error and leaves the id and all attributes as
they were. -/
theorem read_show_error {σ : Type} (d : ResourceData) (client : Client σ)
    (remote remote1 : σ) (err : String)
    (hshow : client.DnsrecordShow { Idnsname := d.name }
        { Dnszoneidnsname := some d.zone_name, All := some true } remote
      = (Except.error err, remote1)) :
    (strings_Contains err "NotFound" = true →
      resourceFreeIPADNSDNSRecordRead d { Client := Except.ok client } remote =
        { diags := [], d := { d with id := "" }, remote := remote1 }) ∧
    (strings_Contains err "NotFound" = false →
      (resourceFreeIPADNSDNSRecordRead d { Client := Except.ok client } remote).diags.HasError
          = true ∧
      (resourceFreeIPADNSDNSRecordRead d { Client := Except.ok client } remote).d = d) := by
  constructor
  · intro hc
    simp [resourceFreeIPADNSDNSRecordRead, hshow, hc, ResourceData.SetId]
  · intro hc
    simp [resourceFreeIPADNSDNSRecordRead, hshow, hc, diag_Errorf, Diagnostics.HasError]

/-- C5 on a scripted remote answering show with a NotFound error. -/
theorem read_show_error_witness :
    resourceFreeIPADNSDNSRecordRead (sampleRecord.SetId "zone.example.com_rec1_A")
        { Client := Except.ok
            (scriptedClient { okScript with show_ := Except.error "NotFound (4001)" }) } []
      = { diags := [], d := { sampleRecord.SetId "zone.example.com_rec1_A" with id := "" },
          remote := ["show"] } :=
  (read_show_error (sampleRecord.SetId "zone.example.com_rec1_A")
    (scriptedClient { okScript with show_ := Except.error "NotFound (4001)" })
    [] ["show"] "NotFound (4001)" rfl).1 (by decide)

/-- C1 on a CNAME record: show answers with the cname field present, and read
leaves `records` as it was (here empty, as after an import) instead of
taking the field's values. -/
theorem read_cname_keeps_records :
    cnameShown.Result.Cnamerecord = some ["host.zone.example.com."] ∧
    (resourceFreeIPADNSDNSRecordRead cnameRecord
        { Client := Except.ok (scriptedClient { okScript with show_ := Except.ok cnameShown }) }
        []).diags = [] ∧
    (resourceFreeIPADNSDNSRecordRead cnameRecord
        { Client := Except.ok (scriptedClient { okScript with show_ := Except.ok cnameShown }) }
        []).d.records = [] := by
  decide

/-! ## Delete -/

/-- C7: with a constructed client, delete returns an error exactly when the del
call returns one, whatever its message, and then leaves the resource data, id
included, as it was; when the del call succeeds, delete returns no error and
sets the id to the empty string. -/
theorem delete_error_iff {σ : Type} (d : ResourceData) (client : Client σ) (remote : σ) :
    ((resourceFreeIPADNSDNSRecordDelete d { Client := Except.ok client } remote).diags.HasError
        = true ↔
      ∃ err, (client.DnsrecordDel (deleteRequest d).1 (deleteRequest d).2 remote).1
        = Except.error err) ∧
    (∀ err, (client.DnsrecordDel (deleteRequest d).1 (deleteRequest d).2 remote).1
        = Except.error err →
      (resourceFreeIPADNSDNSRecordDelete d { Client := Except.ok client } remote).d = d) ∧
    ((client.DnsrecordDel (deleteRequest d).1 (deleteRequest d).2 remote).1 = Except.ok () →
      (resourceFreeIPADNSDNSRecordDelete d { Client := Except.ok client } remote).diags = [] ∧
      (resourceFreeIPADNSDNSRecordDelete d { Client := Except.ok client } remote).d
        = { d with id := "" }) := by
  unfold resourceFreeIPADNSDNSRecordDelete
  rcases hdel : client.DnsrecordDel (deleteRequest d).1 (deleteRequest d).2 remote
    with ⟨r, remote1⟩
  cases r with
  | error e => simp [hdel, diag_Errorf, Diagnostics.HasError]
  | ok u => simp [hdel, Diagnostics.HasError, ResourceData.SetId]

/-- C7 on scripted remotes: a del error mentioning EmptyModlist is fatal and
keeps the id; a successful del clears it. -/
theorem delete_error_iff_witness :
    (resourceFreeIPADNSDNSRecordDelete (sampleRecord.SetId "zone.example.com_rec1_A")
        { Client := Except.ok
            (scriptedClient { okScript with del := Except.error "EmptyModlist" }) } []).d
      = sampleRecord.SetId "zone.example.com_rec1_A" ∧
    ((resourceFreeIPADNSDNSRecordDelete (sampleRecord.SetId "zone.example.com_rec1_A")
        { Client := Except.ok (scriptedClient okScript) } []).diags = [] ∧
     (resourceFreeIPADNSDNSRecordDelete (sampleRecord.SetId "zone.example.com_rec1_A")
        { Client := Except.ok (scriptedClient okScript) } []).d
      = { sampleRecord.SetId "zone.example.com_rec1_A" with id := "" }) :=
  ⟨(delete_error_iff (sampleRecord.SetId "zone.example.com_rec1_A")
      (scriptedClient { okScript with del := Except.error "EmptyModlist" }) []).2.1
      "EmptyModlist" rfl,
   (delete_error_iff (sampleRecord.SetId "zone.example.com_rec1_A")
      (scriptedClient okScript) []).2.2 rfl⟩

/-! ## The type dispatch of the outbound requests -/

/-- C8: in the requests of create, update and delete alike, when the type is
the i-th of the nine record types (compared case-sensitively) exactly the i-th
value field is populated, with the configured records, and the other eight are
unset; for any other type string all nine fields are unset, and the request is
built all the same. -/
theorem request_dispatch (d : ResourceData) :
    (∀ i : Nat, recordTypes[i]? = some d.type →
      (createRequest d).2.valueFields = (List.replicate 9 none).set i (some d.records) ∧
      (updateRequest d).2.valueFields = (List.replicate 9 none).set i (some d.records) ∧
      (deleteRequest d).2.valueFields = (List.replicate 9 none).set i (some d.records)) ∧
    (d.type ∉ recordTypes →
      (createRequest d).2.valueFields = List.replicate 9 none ∧
      (updateRequest d).2.valueFields = List.replicate 9 none ∧
      (deleteRequest d).2.valueFields = List.replicate 9 none) := by
  obtain ⟨id, name, zone, type, records, ttl, si⟩ := d
  constructor
  · intro i hi
    have hlt : i < 9 := by
      by_contra hge
      have : recordTypes[i]? = none := by
        apply List.getElem?_eq_none
        simp only [recordTypes, List.length_cons, List.length_nil]
        omega
      rw [this] at hi
      exact absurd hi (by simp)
    interval_cases i <;> simp only [recordTypes, List.getElem?_cons_zero,
      List.getElem?_cons_succ, Option.some.injEq] at hi <;> subst hi <;>
      cases ttl <;>
      simp [createRequest, updateRequest, deleteRequest,
        DnsrecordOptionalArgs.valueFields, List.replicate]
  · intro hni
    simp only [recordTypes, List.mem_cons, List.mem_singleton, List.not_mem_nil, or_false,
      not_or] at hni
    obtain ⟨h1, h2, h3, h4, h5, h6, h7, h8, h9⟩ := hni
    cases ttl <;>
      simp [createRequest, updateRequest, deleteRequest,
        DnsrecordOptionalArgs.valueFields, List.replicate, h1, h2, h3, h4, h5, h6, h7, h8, h9]

/-- C8 at type `A`, at the lower-case `a` and at the empty type. -/
theorem request_dispatch_witness :
    (createRequest sampleRecord).2.valueFields
      = [some ["192.0.2.1", "192.0.2.2"], none, none, none, none, none, none, none, none] ∧
    (deleteRequest { sampleRecord with type := "a" }).2.valueFields = List.replicate 9 none ∧
    (updateRequest { sampleRecord with type := "" }).2.valueFields = List.replicate 9 none :=
  ⟨((request_dispatch sampleRecord).1 0 rfl).1,
   ((request_dispatch { sampleRecord with type := "a" }).2 (by decide)).2.2,
   ((request_dispatch { sampleRecord with type := "" }).2 (by decide)).2.1⟩

/-! ## Create followed by read -/

/-- C2: for a record of one of the nine types, when add succeeds and the show
that follows returns the value fields submitted by the add (each present field
with the same values as a set, every other field absent), create ends with no
error and with `records` equal, as a set, to the configured records. -/
theorem create_then_read_records {σ : Type} (lowerRune : Char → Char) (d : ResourceData)
    (client : Client σ) (remote remote1 remote2 : σ) (res : DnsrecordShowResult)
    (htype : d.type ∈ recordTypes)
    (hadd : client.DnsrecordAdd (createRequest d).1 (createRequest d).2 remote
      = (Except.ok (), remote1))
    (hshow : client.DnsrecordShow { Idnsname := d.name }
        { Dnszoneidnsname := some d.zone_name, All := some true } remote1
      = (Except.ok res, remote2))
    (hfields : res.Result.valueFields.map (Option.map List.toFinset)
      = (createRequest d).2.valueFields.map (Option.map List.toFinset)) :
    (resourceFreeIPADNSDNSRecordCreate lowerRune d { Client := Except.ok client } remote).diags
      = [] ∧
    (resourceFreeIPADNSDNSRecordCreate lowerRune d
      { Client := Except.ok client } remote).d.records.toFinset = d.records.toFinset := by
  obtain ⟨id, name, zone, type, records, ttl, si⟩ := d
  obtain ⟨⟨rn, ra, raaaa, rcname, rmx, rns, rptr, rsrv, rtxt, rsshfp, rttl⟩⟩ := res
  simp only [recordTypes, List.mem_cons, List.mem_singleton, List.not_mem_nil, or_false]
    at htype
  simp only [resourceFreeIPADNSDNSRecordCreate, hadd, resourceFreeIPADNSDNSRecordRead,
    ResourceData.SetId] at hshow ⊢
  simp only [hshow]
  cases ttl <;> rcases htype with h | h | h | h | h | h | h | h | h <;> subst h <;>
    simp [createRequest, DnsrecordOptionalArgs.valueFields, Dnsrecord.valueFields]
      at hfields <;>
    (first
    | obtain ⟨⟨v, rfl, hv⟩, rfl, rfl, rfl, rfl, rfl, rfl, rfl, rfl⟩ := hfields
    | obtain ⟨rfl, ⟨v, rfl, hv⟩, rfl, rfl, rfl, rfl, rfl, rfl, rfl⟩ := hfields
    | obtain ⟨rfl, rfl, ⟨v, rfl, hv⟩, rfl, rfl, rfl, rfl, rfl, rfl⟩ := hfields
    | obtain ⟨rfl, rfl, rfl, ⟨v, rfl, hv⟩, rfl, rfl, rfl, rfl, rfl⟩ := hfields
    | obtain ⟨rfl, rfl, rfl, rfl, ⟨v, rfl, hv⟩, rfl, rfl, rfl, rfl⟩ := hfields
    | obtain ⟨rfl, rfl, rfl, rfl, rfl, ⟨v, rfl, hv⟩, rfl, rfl, rfl⟩ := hfields
    | obtain ⟨rfl, rfl, rfl, rfl, rfl, rfl, ⟨v, rfl, hv⟩, rfl, rfl⟩ := hfields
    | obtain ⟨rfl, rfl, rfl, rfl, rfl, rfl, rfl, ⟨v, rfl, hv⟩, rfl⟩ := hfields
    | obtain ⟨rfl, rfl, rfl, rfl, rfl, rfl, rfl, rfl, ⟨v, rfl, hv⟩⟩ := hfields) <;>
    by_cases hrn : rn = "" <;> by_cases hz : zone = "" <;> cases rttl <;>
    simp_all [ResourceData.Set_name, ResourceData.Set_zone_name, ResourceData.Set_records,
      ResourceData.Set_ttl, toFinset_dedup_eq]

/-- C2 on a scripted remote whose show returns the submitted values in another
order. -/
theorem create_then_read_records_witness :
    (resourceFreeIPADNSDNSRecordCreate Char.toLower sampleRecord
      { Client := Except.ok (scriptedClient okScript) } []).diags = [] ∧
    (resourceFreeIPADNSDNSRecordCreate Char.toLower sampleRecord
      { Client := Except.ok (scriptedClient okScript) } []).d.records.toFinset
      = sampleRecord.records.toFinset :=
  create_then_read_records Char.toLower sampleRecord (scriptedClient okScript)
    [] ["add"] ["add", "show"] sampleShown (by decide) rfl rfl
    (by
      have h : (["192.0.2.2", "192.0.2.1"] : List String).toFinset
          = (["192.0.2.1", "192.0.2.2"] : List String).toFinset := by
        ext x
        simp [or_comm]
      simp [sampleShown, sampleRecord, createRequest, Dnsrecord.valueFields,
        DnsrecordOptionalArgs.valueFields, h])

/-! ## Tolerated and fatal errors of add and mod -/

/-- C6: when the add of create (the mod of update) fails with a message
containing "EmptyModlist", the operation ends as if the call had succeeded: it
returns what read returns on the state the call left, the same outcome as with
a client whose call succeeds there.  When the message does not contain
"EmptyModlist", the operation returns an error, performs no read (the remote
stays as the call left it) and leaves the resource data, id included, as it
was. -/
theorem emptyModlist_tolerated {σ : Type} (lowerRune : Char → Char) (d : ResourceData)
    (client client2 : Client σ) (remote : σ)
    (hshow : client2.DnsrecordShow = client.DnsrecordShow) :
    (∀ (err : String) (remote1 : σ),
      client.DnsrecordAdd (createRequest d).1 (createRequest d).2 remote
        = (Except.error err, remote1) →
      (strings_Contains err "EmptyModlist" = true →
        client2.DnsrecordAdd (createRequest d).1 (createRequest d).2 remote
          = (Except.ok (), remote1) →
        resourceFreeIPADNSDNSRecordCreate lowerRune d { Client := Except.ok client } remote
          = resourceFreeIPADNSDNSRecordRead (d.SetId (createId lowerRune d))
              { Client := Except.ok client } remote1 ∧
        resourceFreeIPADNSDNSRecordCreate lowerRune d { Client := Except.ok client } remote
          = resourceFreeIPADNSDNSRecordCreate lowerRune d { Client := Except.ok client2 }
              remote) ∧
      (strings_Contains err "EmptyModlist" = false →
        (resourceFreeIPADNSDNSRecordCreate lowerRune d
          { Client := Except.ok client } remote).diags.HasError = true ∧
        (resourceFreeIPADNSDNSRecordCreate lowerRune d
          { Client := Except.ok client } remote).d = d ∧
        (resourceFreeIPADNSDNSRecordCreate lowerRune d
          { Client := Except.ok client } remote).remote = remote1)) ∧
    (∀ (err : String) (remote1 : σ),
      client.DnsrecordMod (updateRequest d).1 (updateRequest d).2 remote
        = (Except.error err, remote1) →
      (strings_Contains err "EmptyModlist" = true →
        client2.DnsrecordMod (updateRequest d).1 (updateRequest d).2 remote
          = (Except.ok (), remote1) →
        resourceFreeIPADNSDNSRecordUpdate d { Client := Except.ok client } remote
          = resourceFreeIPADNSDNSRecordRead d { Client := Except.ok client } remote1 ∧
        resourceFreeIPADNSDNSRecordUpdate d { Client := Except.ok client } remote
          = resourceFreeIPADNSDNSRecordUpdate d { Client := Except.ok client2 } remote) ∧
      (strings_Contains err "EmptyModlist" = false →
        (resourceFreeIPADNSDNSRecordUpdate d
          { Client := Except.ok client } remote).diags.HasError = true ∧
        (resourceFreeIPADNSDNSRecordUpdate d { Client := Except.ok client } remote).d = d ∧
        (resourceFreeIPADNSDNSRecordUpdate d
          { Client := Except.ok client } remote).remote = remote1)) := by
  refine ⟨fun err remote1 hadd => ⟨fun hc hadd2 => ?_, fun hc => ?_⟩,
    fun err remote1 hmod => ⟨fun hc hmod2 => ?_, fun hc => ?_⟩⟩
  · simp only [resourceFreeIPADNSDNSRecordCreate, hadd, hadd2, hc, if_true, true_and]
    exact (read_congr_show _ client client2 remote1 hshow).symm
  · simp [resourceFreeIPADNSDNSRecordCreate, hadd, hc, diag_Errorf, Diagnostics.HasError]
  · simp only [resourceFreeIPADNSDNSRecordUpdate, hmod, hmod2, hc, if_true, true_and]
    exact (read_congr_show _ client client2 remote1 hshow).symm
  · simp [resourceFreeIPADNSDNSRecordUpdate, hmod, hc, diag_Errorf, Diagnostics.HasError]

/-- C6 on scripted remotes: an add failing with EmptyModlist ends like a
successful add; an update whose mod fails otherwise stops before the read. -/
theorem emptyModlist_tolerated_witness :
    (resourceFreeIPADNSDNSRecordCreate Char.toLower sampleRecord
        { Client := Except.ok (scriptedClient { okScript with
            add := Except.error "EmptyModlist (4202): no modifications to be performed" }) }
        []
      = resourceFreeIPADNSDNSRecordCreate Char.toLower sampleRecord
          { Client := Except.ok (scriptedClient okScript) } []) ∧
    (resourceFreeIPADNSDNSRecordUpdate sampleRecord
        { Client := Except.ok
            (scriptedClient { okScript with mod := Except.error "ValidationError" }) }
        []).remote = ["mod"] :=
  ⟨((emptyModlist_tolerated Char.toLower sampleRecord
      (scriptedClient { okScript with
        add := Except.error "EmptyModlist (4202): no modifications to be performed" })
      (scriptedClient okScript) [] rfl).1
      "EmptyModlist (4202): no modifications to be performed" ["add"] rfl).1
      (by decide) rfl |>.2,
   ((emptyModlist_tolerated Char.toLower sampleRecord
      (scriptedClient { okScript with mod := Except.error "ValidationError" })
      (scriptedClient okScript) [] rfl).2
      "ValidationError" ["mod"] rfl).2 (by decide) |>.2.2⟩

/-! ## The composite id -/

/-- C9: for a name, zone and type without "/", after an add that succeeded or
failed with EmptyModlist, create hands to read the record with the id
`createId`; with set_identifier unset or empty that id is
`zone_lowercase(name)_type`, the id import sets for `name/zone/type`; with a
non-empty set_identifier `s` it is that string followed by `_s`. -/
theorem create_id_eq_import_id {σ : Type} (lowerRune : Char → Char) (d d0 : ResourceData)
    (client : Client σ) (remote remote1 : σ) (r : Except String Unit)
    (hn : '/' ∉ d.name.data) (hz : '/' ∉ d.zone_name.data) (ht : '/' ∉ d.type.data)
    (hadd : client.DnsrecordAdd (createRequest d).1 (createRequest d).2 remote = (r, remote1))
    (hr : r = Except.ok () ∨
      ∃ err, r = Except.error err ∧ strings_Contains err "EmptyModlist" = true) :
    resourceFreeIPADNSDNSRecordCreate lowerRune d { Client := Except.ok client } remote
      = resourceFreeIPADNSDNSRecordRead (d.SetId (createId lowerRune d))
          { Client := Except.ok client } remote1 ∧
    (d.set_identifier = none ∨ d.set_identifier = some "" →
      createId lowerRune d = d.zone_name ++ "_" ++ strings_ToLower lowerRune d.name ++ "_"
        ++ d.type ∧
      (resourceFreeIPADNSDNSRecordImport lowerRune
        (d0.SetId (externalID d.name d.zone_name d.type))).d.id = createId lowerRune d) ∧
    (∀ s, d.set_identifier = some s → s ≠ "" →
      createId lowerRune d = d.zone_name ++ "_" ++ strings_ToLower lowerRune d.name ++ "_"
        ++ d.type ++ "_" ++ s) := by
  refine ⟨?_, ?_, ?_⟩
  · rcases hr with rfl | ⟨err, rfl, hc⟩
    · simp only [resourceFreeIPADNSDNSRecordCreate, hadd]
    · simp only [resourceFreeIPADNSDNSRecordCreate, hadd, hc, if_true]
  · intro hs
    have hok : d.GetOk_set_identifier.2 = false := by
      rcases hs with h | h <;> simp [ResourceData.GetOk_set_identifier, h]
    rw [createId_of_unset lowerRune d hok,
      import_of_parts lowerRune d0 d.name d.zone_name d.type hn hz ht]
    exact ⟨rfl, rfl⟩
  · intro s hs hne
    rw [createId_of_set lowerRune d s hs hne]
    rfl

/-- C9 on the sample record: create and import both give
`zone.example.com_rec1_A`. -/
theorem create_id_eq_import_id_witness :
    createId Char.toLower sampleRecord = "zone.example.com_rec1_A" ∧
    (resourceFreeIPADNSDNSRecordImport Char.toLower
      (cnameRecord.SetId (externalID sampleRecord.name sampleRecord.zone_name
        sampleRecord.type))).d.id = createId Char.toLower sampleRecord :=
  ⟨by decide,
   ((create_id_eq_import_id Char.toLower sampleRecord cnameRecord (scriptedClient okScript)
      [] ["add"] (Except.ok ()) (by decide) (by decide) (by decide) rfl (Or.inl rfl)).2.1
      (Or.inl rfl)).2⟩

/-- C10 as stated fails: zone `a_b` with name `c` and zone `a` with name `b_c`
differ in zone and in lowercased name, yet create and import give both the id
`a_b_c_A`.  (Every letter involved is already lower case.) -/
theorem composite_id_collision :
    underscoreZone.zone_name ≠ underscoreName.zone_name ∧
    strings_ToLower Char.toLower underscoreZone.name
      ≠ strings_ToLower Char.toLower underscoreName.name ∧
    createId Char.toLower underscoreZone = "a_b_c_A" ∧
    createId Char.toLower underscoreName = "a_b_c_A" ∧
    (resourceFreeIPADNSDNSRecordImport Char.toLower
      (underscoreZone.SetId "c/a_b/A")).d.id = "a_b_c_A" ∧
    (resourceFreeIPADNSDNSRecordImport Char.toLower
      (underscoreName.SetId "b_c/a/A")).d.id = "a_b_c_A" := by
  decide

/-- C10, amended: for two records without set_identifier whose zones and
lowercased names contain no "_", and that differ in zone, in lowercased name or
in type, the ids computed by create differ, and so do the ids that import
computes for their external ids when no part contains "/". -/
theorem composite_id_unique (lowerRune : Char → Char) (d1 d2 e1 e2 : ResourceData)
    (hs1 : d1.GetOk_set_identifier.2 = false) (hs2 : d2.GetOk_set_identifier.2 = false)
    (hz1 : '_' ∉ d1.zone_name.data) (hl1 : '_' ∉ (strings_ToLower lowerRune d1.name).data)
    (hz2 : '_' ∉ d2.zone_name.data) (hl2 : '_' ∉ (strings_ToLower lowerRune d2.name).data)
    (hdiff : d1.zone_name ≠ d2.zone_name ∨
      strings_ToLower lowerRune d1.name ≠ strings_ToLower lowerRune d2.name ∨
      d1.type ≠ d2.type) :
    createId lowerRune d1 ≠ createId lowerRune d2 ∧
    (('/' ∉ d1.name.data ∧ '/' ∉ d1.zone_name.data ∧ '/' ∉ d1.type.data) →
     ('/' ∉ d2.name.data ∧ '/' ∉ d2.zone_name.data ∧ '/' ∉ d2.type.data) →
      (resourceFreeIPADNSDNSRecordImport lowerRune
        (e1.SetId (externalID d1.name d1.zone_name d1.type))).d.id ≠
      (resourceFreeIPADNSDNSRecordImport lowerRune
        (e2.SetId (externalID d2.name d2.zone_name d2.type))).d.id) := by
  have key : compositeId lowerRune d1.zone_name d1.name d1.type
      ≠ compositeId lowerRune d2.zone_name d2.name d2.type := by
    intro h
    obtain ⟨a, b, c⟩ := compositeId_inj lowerRune _ _ _ _ _ _ hz1 hl1 hz2 hl2 h
    rcases hdiff with h1 | h1 | h1
    · exact h1 a
    · exact h1 b
    · exact h1 c
  refine ⟨?_, ?_⟩
  · rw [createId_of_unset lowerRune d1 hs1, createId_of_unset lowerRune d2 hs2]
    exact key
  · rintro ⟨a1, a2, a3⟩ ⟨b1, b2, b3⟩
    rw [import_of_parts lowerRune e1 _ _ _ a1 a2 a3,
      import_of_parts lowerRune e2 _ _ _ b1 b2 b3]
    exact key

/-- C10, amended, on the sample record and the same record of type AAAA. -/
theorem composite_id_unique_witness :
    createId Char.toLower sampleRecord
      ≠ createId Char.toLower { sampleRecord with type := "AAAA" } :=
  (composite_id_unique Char.toLower sampleRecord { sampleRecord with type := "AAAA" }
    sampleRecord sampleRecord (by decide) (by decide) (by decide) (by decide) (by decide)
    (by decide) (Or.inr (Or.inr (by decide)))).1

end FreeIPA
